import Mathlib

/-!
Verification of the `sleep_scheduler` desktop utility
(`src/sleep_scheduler.py`) against its natural-language specification.

The Python program is a PyQt5 GUI around three small pieces of logic:
  * a countdown engine driven by a 1-second `QTimer`
    (`schedule_action`, `cancel_action`, `update_timer`),
  * a deferred action runner on a background thread (`delayed_action`),
  * a settings store (`save_settings`, `load_settings`),
  * a pure ring/label renderer (`CircularTimerWidget.paintEvent`).

We shallowly embed each piece: integer fields of the Python objects become
`Int` fields of Lean structures, the GUI side effects (status label text,
ring repaints, message boxes) become an explicit list of emitted events,
and the background thread becomes an explicit worker record advanced by an
`elapse` step in a small interleaving model.
-/

namespace SleepSched

/-- The power action chosen by the radio buttons (`"Sleep"` / `"Hibernate"`
strings in the Python source). -/
inductive Action where
  | sleep
  | hibernate
deriving DecidableEq

/-- A side effect the background runner can perform after its wait
(`delayed_action`, lines 342-355): the two Windows power calls, or the
"Unsupported OS" message box posted back to the UI thread via
`QTimer.singleShot`. -/
inductive RunnerEffect where
  | suspendToRAM
  | suspendToDisk
  | unsupportedNotice
deriving DecidableEq

/-- Result of one run of the background worker: how long it slept and which
side effect (if any) it performed afterwards. -/
structure RunnerRun where
  waited : Int
  effect : Option RunnerEffect
deriving DecidableEq

/-- Embeds `SleepScheduler.delayed_action` (src/sleep_scheduler.py, lines
342-355).  The thread sleeps `delay` seconds, then reads the shared
`self.is_cancelled` flag; `cancelledAtWake` is that flag's value at the
moment of the read.  If set it returns with no side effect.  Otherwise, on
`platform.system() == "Windows"` it invokes suspend-to-RAM for Sleep
(`rundll32.exe powrprof.dll,SetSuspendState`) or suspend-to-disk for
Hibernate (`shutdown /h`); on any other platform string it posts the
"Unsupported OS" information box to the UI thread instead. -/
def delayed_action (delay : Int) (cancelledAtWake : Bool) (osName : String)
    (action : Action) : RunnerRun :=
  { waited := delay
    effect :=
      if cancelledAtWake then none
      else if osName = "Windows" then
        match action with
        | Action.sleep => some RunnerEffect.suspendToRAM
        | Action.hibernate => some RunnerEffect.suspendToDisk
      else some RunnerEffect.unsupportedNotice }

/-- An observable UI event emitted by the countdown engine: ring repaints
(`circular_timer.set_timer`), status label updates, and the invalid-input
message box. -/
inductive Event where
  | displayUpdate (total remaining : Int)
  | statusScheduled (action : Action) (delay : Int)
  | statusCancelled
  | statusExecuted
  | invalidInput
deriving DecidableEq

/-- The countdown engine's state: the integer fields of the `SleepScheduler`
widget (`total_seconds`, `remaining_seconds`, `is_cancelled`), whether the
`QTimer` is running, whether the schedule button / entry / radios are
enabled (the cancel button is visible exactly when they are not), and the
trace of events emitted so far. -/
structure SchedState where
  total_seconds : Int
  remaining_seconds : Int
  is_cancelled : Bool
  timerRunning : Bool
  inputsEnabled : Bool
  events : List Event
deriving DecidableEq

/-- State after `SleepScheduler.__init__` (lines 269-273): counters zero,
not cancelled, timer not started, inputs enabled, nothing emitted. -/
def initState : SchedState :=
  { total_seconds := 0
    remaining_seconds := 0
    is_cancelled := false
    timerRunning := false
    inputsEnabled := true
    events := [] }

/-- Embeds `SleepScheduler.schedule_action` (lines 281-308) at the engine
level.  `parsed` is the result of Python's built-in `int(...)` on the entry
text, with `none` standing for the `ValueError` raised on non-integer text.
On `none` or a non-positive value the handler shows the "Invalid Input"
message box and returns without touching any state.  Otherwise it clears
`is_cancelled`, records the status text, sets `total_seconds` and
`remaining_seconds` to the delay, repaints the ring, starts the 1-second
timer, and disables the inputs.  (The `save_settings` call and the thread
spawn are modelled separately: by `save_settings` below and by the system
model's `stepSys`.) -/
def schedule_action (parsed : Option Int) (action : Action)
    (s : SchedState) : SchedState :=
  match parsed with
  | none => { s with events := s.events ++ [Event.invalidInput] }
  | some delay =>
    if delay ≤ 0 then { s with events := s.events ++ [Event.invalidInput] }
    else
      { total_seconds := delay
        remaining_seconds := delay
        is_cancelled := false
        timerRunning := true
        inputsEnabled := false
        events := s.events ++
          [Event.statusScheduled action delay, Event.displayUpdate delay delay] }

/-- Embeds `SleepScheduler.cancel_action` (lines 310-324): sets
`is_cancelled`, stops the timer, zeroes both counters, repaints the ring at
(0, 0), shows the "Action cancelled." status, and re-enables the inputs. -/
def cancel_action (s : SchedState) : SchedState :=
  { total_seconds := 0
    remaining_seconds := 0
    is_cancelled := true
    timerRunning := false
    inputsEnabled := true
    events := s.events ++ [Event.displayUpdate 0 0, Event.statusCancelled] }

/-- Embeds `SleepScheduler.update_timer` (lines 326-340), the `QTimer`
timeout handler: decrement `remaining_seconds`; if still non-negative,
repaint the ring; if negative, stop the timer, show "Action executed."
unless cancelled, and re-enable the inputs. -/
def update_timer (s : SchedState) : SchedState :=
  let r := s.remaining_seconds - 1
  if 0 ≤ r then
    { s with
        remaining_seconds := r
        events := s.events ++ [Event.displayUpdate s.total_seconds r] }
  else
    { s with
        remaining_seconds := r
        timerRunning := false
        inputsEnabled := true
        events := s.events ++
          (if s.is_cancelled then [] else [Event.statusExecuted]) }

/-- One delivery opportunity of the `QTimer`: the timeout handler runs only
while the timer has been started and not stopped. -/
def tick (s : SchedState) : SchedState :=
  if s.timerRunning then update_timer s else s

/-- `n` successive timer deliveries. -/
def tickN : Nat → SchedState → SchedState
  | 0, s => s
  | n + 1, s => tick (tickN n s)

/-- Number of terminal "Action executed." status emissions in a trace. -/
def countExecuted (l : List Event) : Nat :=
  l.count Event.statusExecuted

/-- A live background worker thread spawned by `schedule_action` (line 308):
the schedule sequence number it belongs to, the seconds of `time.sleep`
still ahead of it, and the action it will perform. -/
structure Worker where
  sid : Nat
  waitLeft : Nat
  action : Action
deriving DecidableEq

/-- Whole-program state for the interleaving model: the UI-thread engine
state (which owns the shared `is_cancelled` flag), the list of live
background workers, the next schedule sequence number, and the platform
calls performed so far, each tagged with the schedule that spawned the
firing worker. -/
structure SysState where
  eng : SchedState
  workers : List Worker
  nextSid : Nat
  fired : List (Nat × RunnerEffect)
deriving DecidableEq

/-- Whole-program initial state. -/
def initSys : SysState :=
  { eng := initState, workers := [], nextSid := 0, fired := [] }

/-- The platform call `delayed_action` performs on Windows for each
action (lines 346-350). -/
def effectOnWindows : Action → RunnerEffect
  | Action.sleep => RunnerEffect.suspendToRAM
  | Action.hibernate => RunnerEffect.suspendToDisk

/-- An event of the interleaving model: a click of the Schedule button with
the given entry text parse and radio choice, a click of the Cancel button,
or one second of wall-clock time passing. -/
inductive UIEvent where
  | uiSchedule (parsed : Option Int) (action : Action)
  | uiCancel
  | elapse
deriving DecidableEq

/-- One step of the whole program (running on Windows).  Button events are
delivered only while their button is on screen: Schedule (with the entry
and radios) is enabled exactly when `inputsEnabled`, Cancel exactly
otherwise; a click of a hidden button is a no-op.  A valid schedule spawns
a worker thread that will sleep `delay` seconds (line 308).  `elapse` runs
the pending `QTimer` tick on the UI thread and advances every worker's
remaining sleep by one second; a worker whose sleep ends wakes, reads the
shared `is_cancelled` flag, and either exits silently or performs its
platform call (lines 342-350) and exits. -/
def stepSys : UIEvent → SysState → SysState
  | UIEvent.uiSchedule parsed action, s =>
    if s.eng.inputsEnabled then
      let eng := schedule_action parsed action s.eng
      match parsed with
      | some delay =>
        if 0 < delay then
          { s with
              eng := eng
              workers := s.workers ++ [⟨s.nextSid, delay.toNat, action⟩]
              nextSid := s.nextSid + 1 }
        else { s with eng := eng }
      | none => { s with eng := eng }
    else s
  | UIEvent.uiCancel, s =>
    if s.eng.inputsEnabled then s else { s with eng := cancel_action s.eng }
  | UIEvent.elapse, s =>
    let eng := tick s.eng
    let moved := s.workers.map (fun w => { w with waitLeft := w.waitLeft - 1 })
    let waking := moved.filter (fun w => w.waitLeft == 0)
    let alive := moved.filter (fun w => w.waitLeft != 0)
    { eng := eng
      workers := alive
      nextSid := s.nextSid
      fired :=
        if eng.is_cancelled then s.fired
        else s.fired ++ waking.map (fun w => (w.sid, effectOnWindows w.action)) }

/-- Run a sequence of whole-program events from a state. -/
def runSys : List UIEvent → SysState → SysState
  | [], s => s
  | e :: es, s => runSys es (stepSys e s)

/-- A value read back from the JSON settings file.  Python's `bool` is a
subclass of `int`, so `isinstance(x, int)` accepts both `jint` and
`jbool`; that shape is kept here. -/
inductive JVal where
  | jint (n : Int)
  | jstr (s : String)
  | jbool (b : Bool)
  | jnull
deriving DecidableEq

/-- Python `isinstance(v, int)` on a JSON-decoded value (line 375): true
for integers and booleans. -/
def pyIsInt : JVal → Bool
  | JVal.jint _ => true
  | JVal.jbool _ => true
  | _ => false

/-- Python `str(v)` as used on the stored duration (line 376). -/
def pyStr : JVal → String
  | JVal.jint n => toString n
  | JVal.jstr s => s
  | JVal.jbool true => "True"
  | JVal.jbool false => "False"
  | JVal.jnull => "None"

/-- A decoded JSON object: key/value pairs, later bindings overriding
earlier ones as in a Python dict. -/
def SettingsObj : Type := List (String × JVal)

/-- Python `settings.get(key)` (lines 374, 377): the last binding of the
key, or `None`. -/
def jget (settings : SettingsObj) (key : String) : Option JVal :=
  settings.reverse.lookup key

/-- Embeds `SleepScheduler.save_settings` (lines 357-364): the JSON object
written to `settings.json` on a successful write (an `IOError` is only
logged; the claims concern the successful round trip). -/
def save_settings (seconds : Int) (action : String) : SettingsObj :=
  [("last_duration", JVal.jint seconds), ("last_action", JVal.jstr action)]

/-- What `load_settings` leaves in the UI: the text put into the duration
entry (if any) and whether the Hibernate radio was checked (Sleep is the
`__init__` default). -/
structure LoadResult where
  entryText : Option String
  hibernateChecked : Bool
deriving DecidableEq

/-- A whole JSON document as returned by a successful `json.load`: either
an object (a Python dict), or valid JSON of one of the non-object
top-level shapes — array, string, number, boolean, null.  Only the object
carries observable content, because the code calls `settings.get` before
looking at anything else, and none of the non-dict Python values decoded
by `json.load` has a `get` attribute. -/
inductive JDoc where
  | jobj (fields : List (String × JVal))
  | jarrDoc (elems : List JVal)
  | jstrDoc (s : String)
  | jintDoc (n : Int)
  | jboolDoc (b : Bool)
  | jnullDoc
deriving DecidableEq

/-- A Python exception that escapes `load_settings` uncaught. -/
inductive PyError where
  | attributeError
deriving DecidableEq

/-- Embeds `SleepScheduler.load_settings` (lines 366-382).  The `file`
argument models the state of `settings.json`: `none` when
`os.path.exists` is false (absent file, return before the try block),
`some none` when opening or `json.load` fails (`IOError` /
`JSONDecodeError`: unreadable, or not valid JSON — both caught by the
except clause at line 381), and `some (some doc)` when `json.load`
succeeds and decodes the document `doc`.  When `doc` is an object, the
entry is prefilled with `str(last_duration)` whenever
`isinstance(last_duration, int)`, and the Hibernate radio is checked
exactly when `last_action` equals the string `"Hibernate"`.  When `doc`
is valid JSON but not an object (a list, string, number, boolean or
null), `settings.get` at line 374 raises `AttributeError`, which the
except clause — catching only `IOError` and `JSONDecodeError` — does not
handle, so the exception escapes `load_settings` and crashes startup:
that path returns `Except.error` rather than a default result. -/
def load_settings (file : Option (Option JDoc)) : Except PyError LoadResult :=
  match file with
  | none => Except.ok { entryText := none, hibernateChecked := false }
  | some none => Except.ok { entryText := none, hibernateChecked := false }
  | some (some (JDoc.jobj settings)) =>
    Except.ok
      { entryText :=
          match jget settings "last_duration" with
          | some v => if pyIsInt v then some (pyStr v) else none
          | none => none
        hibernateChecked :=
          jget settings "last_action" = some (JVal.jstr "Hibernate") }
  | some (some _) => Except.error PyError.attributeError

/-- Embeds the arc-angle computation of `CircularTimerWidget.paintEvent`
(lines 108-112): `360 * (remaining_seconds / total_seconds)` under Python
true division when `total_seconds > 0`, else `0`.  Python floats are
modelled by exact rationals. -/
def sweepAngle (total_seconds remaining_seconds : Int) : ℚ :=
  if 0 < total_seconds then
    360 * ((remaining_seconds : ℚ) / (total_seconds : ℚ))
  else 0

/-- The ring's sweep fraction: the fraction of the full circle the drawn
arc covers, i.e. the computed angle divided by 360. -/
def sweepFraction (total_seconds remaining_seconds : Int) : ℚ :=
  sweepAngle total_seconds remaining_seconds / 360

/-- Python `int(q)` on a float: truncation toward zero. -/
def pyTrunc (q : ℚ) : Int :=
  if 0 ≤ q then ⌊q⌋ else -⌊-q⌋

/-- The span argument of the `drawPie` call (lines 115-119), in sixteenths
of a degree, negative meaning clockwise from the 12-o'clock start
(`90 * 16`); `none` when the pie is not drawn (`angle > 0` guard). -/
def drawnPieSpan (total_seconds remaining_seconds : Int) : Option Int :=
  let angle := sweepAngle total_seconds remaining_seconds
  if 0 < angle then some (pyTrunc (-angle * 16)) else none

/-- Python `f"{n:02}"` on an int: decimal rendering left-padded with zeros
to a minimum width of two.  (Negative values already occupy at least two
characters, so the sign handling of Python's zero padding never differs
from a plain left pad at width two.) -/
def pad2 (n : Int) : String :=
  let s := toString n
  if s.length < 2 then String.mk (List.replicate (2 - s.length) '0') ++ s
  else s

/-- Embeds the time-label computation of `CircularTimerWidget.paintEvent`
(lines 134-136): `divmod(remaining_seconds, 60)` (Python floor division
and modulo) formatted as two zero-padded fields joined by a colon. -/
def timeStr (remaining_seconds : Int) : String :=
  let mins := remaining_seconds.fdiv 60
  let secs := remaining_seconds.fmod 60
  pad2 mins ++ ":" ++ pad2 secs

/-- The two timer fields of `CircularTimerWidget`. -/
structure CircularTimerState where
  total_seconds : Int
  remaining_seconds : Int
deriving DecidableEq

/-- Widget state after `CircularTimerWidget.__init__` (lines 84-89): both
fields start at 1. -/
def circularTimerInit : CircularTimerState :=
  { total_seconds := 1, remaining_seconds := 1 }

/-- Embeds `CircularTimerWidget.set_timer` (lines 91-94). -/
def set_timer (total remaining : Int) (w : CircularTimerState) :
    CircularTimerState :=
  { w with total_seconds := total, remaining_seconds := remaining }

/-- The persistent fields of the countdown engine (everything except the
emitted-event trace): total, remaining, cancelled flag, timer running. -/
def engineFields (s : SchedState) : Int × Int × Bool × Bool :=
  (s.total_seconds, s.remaining_seconds, s.is_cancelled, s.timerRunning)

/-- Invariant of cancel-free whole-program executions: at most one worker
is alive; the inputs are enabled only when no worker is alive; and a live
worker's remaining sleep is at least 1 and agrees with the engine's
remaining seconds while the timer runs. -/
def sysInv (s : SysState) : Prop :=
  s.workers.length ≤ 1 ∧
  (s.eng.inputsEnabled = true → s.workers = []) ∧
  (∀ w ∈ s.workers,
    s.eng.timerRunning = true ∧ ((w.waitLeft : Int) = s.eng.remaining_seconds ∧
      1 ≤ w.waitLeft))

lemma countExecuted_append (l1 l2 : List Event) :
    countExecuted (l1 ++ l2) = countExecuted l1 + countExecuted l2 :=
  List.count_append ..

lemma tick_stopped (s : SchedState) (h : s.timerRunning = false) :
    tick s = s := by
  simp [tick, h]

lemma tickN_stopped (n : Nat) (s : SchedState) (h : s.timerRunning = false) :
    tickN n s = s := by
  induction n with
  | zero => rfl
  | succ n ih =>
    rw [show tickN (n + 1) s = tick (tickN n s) from rfl, ih, tick_stopped s h]

lemma tickN_add (m n : Nat) (s : SchedState) :
    tickN (m + n) s = tickN m (tickN n s) := by
  induction m with
  | zero => rw [Nat.zero_add]; rfl
  | succ m ih =>
    rw [show m + 1 + n = (m + n) + 1 by omega,
      show tickN ((m + n) + 1) s = tick (tickN (m + n) s) from rfl, ih]
    rfl

lemma tick_run_pos (s : SchedState) (h1 : s.timerRunning = true)
    (h2 : 1 ≤ s.remaining_seconds) :
    tick s = { s with
        remaining_seconds := s.remaining_seconds - 1
        events := s.events ++
          [Event.displayUpdate s.total_seconds (s.remaining_seconds - 1)] } := by
  have h3 : 0 ≤ s.remaining_seconds - 1 := by omega
  simp [tick, update_timer, h1, h3]

lemma tick_run_last (s : SchedState) (h1 : s.timerRunning = true)
    (h2 : s.remaining_seconds = 0) :
    tick s = { s with
        remaining_seconds := -1
        timerRunning := false
        inputsEnabled := true
        events := s.events ++
          (if s.is_cancelled then [] else [Event.statusExecuted]) } := by
  simp [tick, update_timer, h1, h2]

lemma schedule_valid (d : Int) (hd : 0 < d) (action : Action) (s : SchedState) :
    schedule_action (some d) action s =
      { total_seconds := d
        remaining_seconds := d
        is_cancelled := false
        timerRunning := true
        inputsEnabled := false
        events := s.events ++
          [Event.statusScheduled action d, Event.displayUpdate d d] } := by
  have hd' : ¬ (d ≤ 0) := by omega
  simp [schedule_action, hd']

/-- During the countdown proper (the first `d` timer deliveries after a
valid start), the remaining time after `k` ticks is `d - k`, the timer is
still running, the inputs are still disabled, the cancel flag is clear,
and no "expired" status has been emitted. -/
lemma tickN_progress (d : Nat) (hd : 0 < d) (action : Action) :
    ∀ k : Nat, k ≤ d →
      (tickN k (schedule_action (some (d : Int)) action initState)).total_seconds = (d : Int) ∧
      (tickN k (schedule_action (some (d : Int)) action initState)).remaining_seconds
        = (d : Int) - (k : Int) ∧
      (tickN k (schedule_action (some (d : Int)) action initState)).is_cancelled = false ∧
      (tickN k (schedule_action (some (d : Int)) action initState)).timerRunning = true ∧
      (tickN k (schedule_action (some (d : Int)) action initState)).inputsEnabled = false ∧
      countExecuted (tickN k (schedule_action (some (d : Int)) action initState)).events = 0 := by
  intro k
  induction k with
  | zero =>
    intro _
    have hd' : (0 : Int) < (d : Nat) := by exact_mod_cast hd
    rw [show tickN 0 (schedule_action (some (d : Int)) action initState)
        = schedule_action (some (d : Int)) action initState from rfl,
      schedule_valid _ hd' action]
    refine ⟨rfl, by norm_num, rfl, rfl, rfl, ?_⟩
    simp [initState, countExecuted]
  | succ k ih =>
    intro hk1
    have hk : k ≤ d := by omega
    obtain ⟨h1, h2, h3, h4, h5, h6⟩ := ih hk
    have hrem : 1 ≤ (tickN k (schedule_action (some (d : Int)) action initState)).remaining_seconds := by
      rw [h2]; omega
    rw [show tickN (k + 1) (schedule_action (some (d : Int)) action initState)
        = tick (tickN k (schedule_action (some (d : Int)) action initState)) from rfl,
      tick_run_pos _ h4 hrem]
    refine ⟨h1, ?_, h3, h4, h5, ?_⟩
    · show (tickN k (schedule_action (some (d : Int)) action initState)).remaining_seconds - 1
        = (d : Int) - ((k : Nat) + 1 : Nat)
      rw [h2]; push_cast; ring
    · show countExecuted ((tickN k (schedule_action (some (d : Int)) action initState)).events
        ++ [Event.displayUpdate _ _]) = 0
      rw [countExecuted_append, h6]
      simp [countExecuted]

/-- The `(d+1)`-st timer delivery after a valid start is the expiry step:
remaining drops to `-1`, the timer stops, the inputs come back, and the
"Action executed." status has been emitted exactly once. -/
lemma tickN_expiry (d : Nat) (hd : 0 < d) (action : Action) :
    (tickN (d + 1) (schedule_action (some (d : Int)) action initState)).total_seconds = (d : Int) ∧
    (tickN (d + 1) (schedule_action (some (d : Int)) action initState)).remaining_seconds = -1 ∧
    (tickN (d + 1) (schedule_action (some (d : Int)) action initState)).is_cancelled = false ∧
    (tickN (d + 1) (schedule_action (some (d : Int)) action initState)).timerRunning = false ∧
    (tickN (d + 1) (schedule_action (some (d : Int)) action initState)).inputsEnabled = true ∧
    countExecuted (tickN (d + 1) (schedule_action (some (d : Int)) action initState)).events = 1 := by
  obtain ⟨h1, h2, h3, h4, h5, h6⟩ := tickN_progress d hd action d le_rfl
  have h2' : (tickN d (schedule_action (some (d : Int)) action initState)).remaining_seconds = 0 := by
    rw [h2]; ring
  rw [show tickN (d + 1) (schedule_action (some (d : Int)) action initState)
      = tick (tickN d (schedule_action (some (d : Int)) action initState)) from rfl,
    tick_run_last _ h4 h2']
  refine ⟨h1, rfl, h3, rfl, rfl, ?_⟩
  rw [h3]
  show countExecuted ((tickN d (schedule_action (some (d : Int)) action initState)).events
      ++ [Event.statusExecuted]) = 1
  rw [countExecuted_append, h6]
  simp [countExecuted]

lemma sysInv_step (e : UIEvent) (s : SysState) (he : e ≠ UIEvent.uiCancel)
    (h : sysInv s) : sysInv (stepSys e s) := by
  obtain ⟨hlen, henw, hw⟩ := h
  cases e with
  | uiCancel => exact absurd rfl he
  | uiSchedule parsed action =>
    by_cases hen : s.eng.inputsEnabled = true
    · have hwnil : s.workers = [] := henw hen
      cases parsed with
      | none =>
        have heng : (stepSys (UIEvent.uiSchedule none action) s).eng
            = schedule_action none action s.eng := by
          simp [stepSys, hen]
        have hwrk : (stepSys (UIEvent.uiSchedule none action) s).workers
            = s.workers := by
          simp [stepSys, hen]
        refine ⟨?_, ?_, ?_⟩
        · rw [hwrk, hwnil]; decide
        · intro _; rw [hwrk, hwnil]
        · intro w hmem
          rw [hwrk, hwnil] at hmem
          simp at hmem
      | some delay =>
        by_cases hpos : 0 < delay
        · have heng : (stepSys (UIEvent.uiSchedule (some delay) action) s).eng
              = schedule_action (some delay) action s.eng := by
            simp [stepSys, hen, hpos]
          have hwrk : (stepSys (UIEvent.uiSchedule (some delay) action) s).workers
              = s.workers ++ [⟨s.nextSid, delay.toNat, action⟩] := by
            simp [stepSys, hen, hpos]
          have hsched := schedule_valid delay hpos action s.eng
          refine ⟨?_, ?_, ?_⟩
          · rw [hwrk, hwnil]; simp
          · intro hcon
            rw [heng, hsched] at hcon
            simp at hcon
          · intro w hmem
            rw [hwrk, hwnil] at hmem
            simp at hmem
            rw [heng, hsched, hmem]
            refine ⟨rfl, ?_, ?_⟩
            · show ((delay.toNat : Int) = delay)
              omega
            · show 1 ≤ delay.toNat
              omega
        · have heng : (stepSys (UIEvent.uiSchedule (some delay) action) s).eng
              = schedule_action (some delay) action s.eng := by
            simp [stepSys, hen, hpos]
          have hwrk : (stepSys (UIEvent.uiSchedule (some delay) action) s).workers
              = s.workers := by
            simp [stepSys, hen, hpos]
          have hdle : delay ≤ 0 := by omega
          have heng2 : schedule_action (some delay) action s.eng
              = { s.eng with events := s.eng.events ++ [Event.invalidInput] } := by
            simp [schedule_action, hdle]
          refine ⟨?_, ?_, ?_⟩
          · rw [hwrk, hwnil]; decide
          · intro _; rw [hwrk, hwnil]
          · intro w hmem
            rw [hwrk, hwnil] at hmem
            simp at hmem
    · have hstep : stepSys (UIEvent.uiSchedule parsed action) s = s := by
        simp [stepSys, hen]
      rw [hstep]
      exact ⟨hlen, henw, hw⟩
  | elapse =>
    have heng : (stepSys UIEvent.elapse s).eng = tick s.eng := rfl
    have hcases : s.workers = [] ∨ ∃ w, s.workers = [w] := by
      rcases hws : s.workers with _ | ⟨w, _ | _⟩
      · exact Or.inl rfl
      · exact Or.inr ⟨w, rfl⟩
      · rw [hws] at hlen; simp at hlen
    rcases hcases with hws | ⟨w, hws⟩
    · have hwrk : (stepSys UIEvent.elapse s).workers = [] := by
        simp [stepSys, hws]
      refine ⟨?_, ?_, ?_⟩
      · rw [hwrk]; decide
      · intro _; rw [hwrk]
      · intro w hmem
        rw [hwrk] at hmem
        simp at hmem
    · obtain ⟨hrun, hcast, hge1⟩ := hw w (by rw [hws]; exact List.mem_cons_self w [])
      have hrem1 : 1 ≤ s.eng.remaining_seconds := by omega
      have htick := tick_run_pos s.eng hrun hrem1
      by_cases hlast : w.waitLeft - 1 = 0
      · have hwrk : (stepSys UIEvent.elapse s).workers = [] := by
          simp [stepSys, hws, hlast]
        refine ⟨?_, ?_, ?_⟩
        · rw [hwrk]; decide
        · intro _; rw [hwrk]
        · intro w hmem
          rw [hwrk] at hmem
          simp at hmem
      · have hwrk : (stepSys UIEvent.elapse s).workers
            = [⟨w.sid, w.waitLeft - 1, w.action⟩] := by
          simp [stepSys, hws, hlast]
        have hinputs : s.eng.inputsEnabled = false := by
          rcases Bool.eq_false_or_eq_true s.eng.inputsEnabled with hb | hb
          · rw [henw hb] at hws; simp at hws
          · exact hb
        refine ⟨?_, ?_, ?_⟩
        · rw [hwrk]; simp
        · intro hcon
          rw [heng, htick] at hcon
          simp [hinputs] at hcon
        · intro w2 hmem
          rw [hwrk] at hmem
          simp at hmem
          rw [heng, htick, hmem]
          refine ⟨hrun, ?_, ?_⟩
          · show ((w.waitLeft - 1 : Nat) : Int) = s.eng.remaining_seconds - 1
            omega
          · show 1 ≤ w.waitLeft - 1
            omega

lemma sysInv_run (es : List UIEvent) (s : SysState)
    (he : ∀ e ∈ es, e ≠ UIEvent.uiCancel) (h : sysInv s) :
    sysInv (runSys es s) := by
  induction es generalizing s with
  | nil => exact h
  | cons e es ih =>
    exact ih (stepSys e s) (fun x hx => he x (List.mem_cons_of_mem e hx))
      (sysInv_step e s (he e (List.mem_cons_self e es)) h)

lemma sysInv_init : sysInv initSys := by
  refine ⟨by decide, fun _ => rfl, ?_⟩
  intro w hmem
  simp [initSys, initState] at hmem

/-- C1: for every schedule of duration d > 0 and action, the deferred
action runner waits d seconds and then checks the shared cancellation
flag: if the flag is set at the post-wait check it performs no side effect
at all; if clear, on Windows it invokes the platform power action for the
chosen action (Sleep invokes suspend-to-RAM, Hibernate suspend-to-disk),
and on any other platform it reports the unsupported-platform notice to
the UI context instead of performing any action. -/
theorem C1_deferred_runner (delay : Int) (cancelled : Bool) (osName : String)
    (action : Action) (hd : 0 < delay) :
    (delayed_action delay cancelled osName action).waited = delay ∧
    (cancelled = true →
      (delayed_action delay cancelled osName action).effect = none) ∧
    (cancelled = false → osName = "Windows" →
      (delayed_action delay cancelled osName action).effect
        = some (effectOnWindows action)) ∧
    (cancelled = false → osName = "Windows" → action = Action.sleep →
      (delayed_action delay cancelled osName action).effect
        = some RunnerEffect.suspendToRAM) ∧
    (cancelled = false → osName = "Windows" → action = Action.hibernate →
      (delayed_action delay cancelled osName action).effect
        = some RunnerEffect.suspendToDisk) ∧
    (cancelled = false → osName ≠ "Windows" →
      (delayed_action delay cancelled osName action).effect
        = some RunnerEffect.unsupportedNotice) := by
  refine ⟨rfl, ?_, ?_, ?_, ?_, ?_⟩
  · intro hc
    simp [delayed_action, hc]
  · intro hc hos
    cases action <;> simp [delayed_action, hc, hos, effectOnWindows]
  · intro hc hos ha
    simp [delayed_action, hc, hos, ha]
  · intro hc hos ha
    simp [delayed_action, hc, hos, ha]
  · intro hc hos
    simp [delayed_action, hc, hos]

/-- Witness for C1 at delay 5, flag clear, Windows, action Sleep. -/
theorem C1_deferred_runner_witness :
    (0 : Int) < 5 ∧
    (delayed_action 5 false "Windows" Action.sleep).effect
      = some RunnerEffect.suspendToRAM :=
  ⟨by decide,
    ((C1_deferred_runner 5 false "Windows" Action.sleep (by decide)).2.2.2.1
      rfl rfl rfl)⟩

/-- C2: for every duration d > 0, starting the countdown and letting the
timer fire d+1 times ends in the terminal expired state exactly once:
after k ≤ d ticks the remaining time is d - k (each tick decrements it by
one), the (d+1)-st tick drives it to -1 and stops the timer, the
"Action executed." terminal status is emitted exactly once, remaining is
never observed below -1, and no further tick changes anything until the
next start (which restarts the timer). -/
theorem C2_countdown_expiry (d : Nat) (action : Action) (hd : 0 < d) :
    (∀ k : Nat, k ≤ d →
      (tickN k (schedule_action (some (d : Int)) action initState)).remaining_seconds
        = (d : Int) - (k : Int)) ∧
    (tickN (d + 1) (schedule_action (some (d : Int)) action initState)).remaining_seconds
      = -1 ∧
    (tickN (d + 1) (schedule_action (some (d : Int)) action initState)).timerRunning
      = false ∧
    countExecuted
      (tickN (d + 1) (schedule_action (some (d : Int)) action initState)).events = 1 ∧
    (∀ k : Nat,
      -1 ≤ (tickN k (schedule_action (some (d : Int)) action initState)).remaining_seconds) ∧
    (∀ j : Nat,
      tickN j (tickN (d + 1) (schedule_action (some (d : Int)) action initState))
        = tickN (d + 1) (schedule_action (some (d : Int)) action initState)) ∧
    (∀ delay : Int, 0 < delay →
      (schedule_action (some delay) action
        (tickN (d + 1) (schedule_action (some (d : Int)) action initState))).timerRunning
        = true) := by
  obtain ⟨e1, e2, e3, e4, e5, e6⟩ := tickN_expiry d hd action
  refine ⟨?_, e2, e4, e6, ?_, ?_, ?_⟩
  · intro k hk
    exact (tickN_progress d hd action k hk).2.1
  · intro k
    by_cases hk : k ≤ d
    · have := (tickN_progress d hd action k hk).2.1
      rw [this]; omega
    · have hk1 : k = (k - (d + 1)) + (d + 1) := by omega
      rw [hk1, tickN_add, tickN_stopped _ _ e4, e2]
  · intro j
    exact tickN_stopped j _ e4
  · intro delay hpos
    rw [schedule_valid delay hpos action]

/-- Witness for C2 at d = 3. -/
theorem C2_countdown_expiry_witness :
    0 < 3 ∧
    (tickN 4 (schedule_action (some ((3 : Nat) : Int)) Action.sleep initState)).remaining_seconds
      = -1 :=
  ⟨by decide, (C2_countdown_expiry 3 Action.sleep (by decide)).2.1⟩

/-- C3 counterexample: the interleaving start(5); two seconds pass;
cancel; start(10) leaves two background workers concurrently alive
(cancel re-enables the Schedule button while the cancelled worker is
still inside its 5-second sleep), and after three more seconds the first
schedule's worker wakes, finds the shared flag cleared by the second
start, and fires the first schedule's suspend-to-RAM call even though
that schedule was cancelled and a later start is pending. -/
theorem C3_counterexample :
    (runSys [UIEvent.uiSchedule (some 5) Action.sleep, UIEvent.elapse,
      UIEvent.elapse, UIEvent.uiCancel,
      UIEvent.uiSchedule (some 10) Action.hibernate] initSys).workers.length = 2 ∧
    (runSys [UIEvent.uiSchedule (some 5) Action.sleep, UIEvent.elapse,
      UIEvent.elapse, UIEvent.uiCancel,
      UIEvent.uiSchedule (some 10) Action.hibernate, UIEvent.elapse,
      UIEvent.elapse, UIEvent.elapse] initSys).fired
      = [(0, RunnerEffect.suspendToRAM)] := by
  constructor <;> decide

/-- C3 amended: in every execution that contains no cancel event, at most
one background worker is alive at any time (the UI state machine
re-enables Schedule only after the sole worker has already exited).  A
cancel, however, re-enables Schedule while the cancelled worker is still
sleeping, so interleavings with cancel can produce two concurrently alive
workers, and the new start clears the shared flag so the earlier worker
fires its platform action (see the counterexample). -/
theorem C3_single_worker (es : List UIEvent)
    (he : ∀ e ∈ es, e ≠ UIEvent.uiCancel) :
    (runSys es initSys).workers.length ≤ 1 :=
  (sysInv_run es initSys he sysInv_init).1

/-- Witness for C3 amended: a cancel-free run with two schedules. -/
theorem C3_single_worker_witness :
    (runSys [UIEvent.uiSchedule (some 2) Action.sleep, UIEvent.elapse,
      UIEvent.elapse, UIEvent.elapse,
      UIEvent.uiSchedule (some 1) Action.hibernate, UIEvent.elapse]
      initSys).workers.length ≤ 1 :=
  C3_single_worker _ (by decide)

/-- C4 counterexample: on the freshly-constructed idle engine
(state {0, 0, cancelled=false}) a cancel is not a no-op: it flips the
cancelled flag to true and emits the ring repaint and the terminal
"cancelled" status. -/
theorem C4_counterexample :
    initState.is_cancelled = false ∧
    (cancel_action initState).is_cancelled = true ∧
    (cancel_action initState).events
      = [Event.displayUpdate 0 0, Event.statusCancelled] ∧
    cancel_action initState ≠ initState := by
  refine ⟨rfl, rfl, rfl, ?_⟩
  decide

/-- C4 amended: for every state with 0 ≤ remaining ≤ total, cancel
immediately yields {total=0, remaining=0, cancelled=true}, stops the
timer, and emits the terminal "cancelled" status; it is idempotent on the
engine fields (a second cancel changes none of them).  But cancel on an
already-idle, never-cancelled engine is not a no-op: it still sets the
cancelled flag and emits the status (see the counterexample); only on an
already-cancelled engine are the engine fields left unchanged. -/
theorem C4_cancel (s : SchedState) (h0 : 0 ≤ s.remaining_seconds)
    (h1 : s.remaining_seconds ≤ s.total_seconds) :
    (cancel_action s).total_seconds = 0 ∧
    (cancel_action s).remaining_seconds = 0 ∧
    (cancel_action s).is_cancelled = true ∧
    (cancel_action s).timerRunning = false ∧
    (cancel_action s).events
      = s.events ++ [Event.displayUpdate 0 0, Event.statusCancelled] ∧
    engineFields (cancel_action (cancel_action s)) = engineFields (cancel_action s) := by
  exact ⟨rfl, rfl, rfl, rfl, rfl, rfl⟩

/-- Witness for C4 amended at the state reached by start(5). -/
theorem C4_cancel_witness :
    (cancel_action (schedule_action (some 5) Action.sleep initState)).remaining_seconds
      = 0 ∧
    (cancel_action (schedule_action (some 5) Action.sleep initState)).is_cancelled
      = true :=
  ⟨(C4_cancel (schedule_action (some 5) Action.sleep initState)
      (by decide) (by decide)).2.1,
    (C4_cancel (schedule_action (some 5) Action.sleep initState)
      (by decide) (by decide)).2.2.1⟩

/-- C5: a user input that does not parse as an integer (Python int()
raising ValueError, modelled as a `none` parse) or parses to a
non-positive integer makes start fail synchronously with the invalid-input
report and nothing else: the resulting state is the old one with only the
error event appended, so no counter, flag, timer or input enablement is
mutated and no schedule begins.  A positive duration d sets
total = remaining = d, clears the cancelled flag, and starts the timer. -/
theorem C5_validation (parsed : Option Int) (action : Action) (s : SchedState) :
    ((parsed = none ∨ ∃ d : Int, parsed = some d ∧ d ≤ 0) →
      schedule_action parsed action s
        = { s with events := s.events ++ [Event.invalidInput] }) ∧
    (∀ d : Int, parsed = some d → 0 < d →
      (schedule_action parsed action s).total_seconds = d ∧
      (schedule_action parsed action s).remaining_seconds = d ∧
      (schedule_action parsed action s).is_cancelled = false ∧
      (schedule_action parsed action s).timerRunning = true) := by
  constructor
  · intro hbad
    rcases hbad with hnone | ⟨d, hsome, hle⟩
    · rw [hnone]; rfl
    · rw [hsome]
      simp [schedule_action, hle]
  · intro d hsome hpos
    rw [hsome, schedule_valid d hpos action]
    exact ⟨rfl, rfl, rfl, rfl⟩

/-- Witness for C5: a non-positive parse is rejected without mutation and
a positive one starts the countdown. -/
theorem C5_validation_witness :
    schedule_action (some (-3)) Action.sleep initState
      = { initState with events := initState.events ++ [Event.invalidInput] } ∧
    (schedule_action (some 5) Action.hibernate initState).total_seconds = 5 :=
  ⟨(C5_validation (some (-3)) Action.sleep initState).1
      (Or.inr ⟨-3, rfl, by decide⟩),
    ((C5_validation (some 5) Action.hibernate initState).2 5 rfl (by decide)).1⟩

/-- C6 counterexample: after the countdown started with duration 1
expires (two timer deliveries), the engine is idle again — timer stopped,
inputs re-enabled — yet the state is {total=1, remaining=-1,
cancelled=false}, not {0, 0, false}: the expiry path never resets the
counters. -/
theorem C6_counterexample :
    (tickN 2 (schedule_action (some 1) Action.sleep initState)).timerRunning
      = false ∧
    (tickN 2 (schedule_action (some 1) Action.sleep initState)).inputsEnabled
      = true ∧
    (tickN 2 (schedule_action (some 1) Action.sleep initState)).total_seconds = 1 ∧
    (tickN 2 (schedule_action (some 1) Action.sleep initState)).remaining_seconds
      = -1 := by
  decide

/-- C6 amended: the CountdownState is {0, 0, false} only at construction.
After a cancel the idle state is {0, 0, cancelled=true} (the flag is left
set), and after an expiry of start(d) it is {total=d, remaining=-1,
cancelled=false}: the terminal paths stop the ticking but do not reset
the state to {0, 0, false}. -/
theorem C6_idle_state (d : Nat) (action : Action) (s : SchedState) (hd : 0 < d) :
    (initState.total_seconds = 0 ∧ initState.remaining_seconds = 0 ∧
      initState.is_cancelled = false) ∧
    ((cancel_action s).total_seconds = 0 ∧
      (cancel_action s).remaining_seconds = 0 ∧
      (cancel_action s).is_cancelled = true) ∧
    ((tickN (d + 1) (schedule_action (some (d : Int)) action initState)).total_seconds
        = (d : Int) ∧
      (tickN (d + 1) (schedule_action (some (d : Int)) action initState)).remaining_seconds
        = -1 ∧
      (tickN (d + 1) (schedule_action (some (d : Int)) action initState)).is_cancelled
        = false) := by
  obtain ⟨e1, e2, e3, _, _, _⟩ := tickN_expiry d hd action
  exact ⟨⟨rfl, rfl, rfl⟩, ⟨rfl, rfl, rfl⟩, e1, e2, e3⟩

/-- Witness for C6 amended at d = 1 on the initial state. -/
theorem C6_idle_state_witness :
    (cancel_action initState).is_cancelled = true ∧
    (tickN 2 (schedule_action (some ((1 : Nat) : Int)) Action.sleep initState)).total_seconds
      = ((1 : Nat) : Int) :=
  ⟨(C6_idle_state 1 Action.sleep initState (by decide)).2.1.2.2,
    (C6_idle_state 1 Action.sleep initState (by decide)).2.2.1⟩

/-- C7 counterexample: two concrete inputs break the claim.  A settings
file storing the non-positive duration -5 is not rejected: load prefills
the duration entry with "-5" instead of falling back to the default empty
entry — the code checks only isinstance(last_duration, int), never
positivity.  And a malformed settings file holding the valid JSON
document [] does not fall back to the default either: settings.get on the
decoded list raises an AttributeError that the except clause (which
catches only IOError and JSONDecodeError) lets escape, crashing load
instead of returning anything. -/
theorem C7_counterexample :
    load_settings (some (some (JDoc.jobj [("last_duration", JVal.jint (-5)),
        ("last_action", JVal.jstr "Sleep")])))
      = Except.ok { entryText := some "-5", hibernateChecked := false } ∧
    load_settings (some (some (JDoc.jarrDoc [])))
      = Except.error PyError.attributeError :=
  ⟨rfl, rfl⟩

/-- C7 amended: the save/load round trip holds — after save(90, Hibernate)
a load returns (90, Hibernate).  A missing or unreadable file, or one
whose content is not valid JSON, yields the default of no prefilled
duration and Sleep, as does a decoded object with a missing or
non-integer stored duration; a stored action is honoured only when it is
exactly "Hibernate", anything else leaving the default Sleep.  But the
claimed validation and fallback stop there: a stored duration is checked
only as an integer, not as a positive one — any integer, including zero
and negatives, is prefilled — and a file decoding to valid JSON that is
not an object (a list, string, number, boolean or null) does not produce
the default at all: settings.get raises an AttributeError that the except
clause does not catch, and load crashes (see the counterexample). -/
theorem C7_settings (n : Int) (str : String) (b : Bool) (elems : List JVal) :
    load_settings (some (some (JDoc.jobj (save_settings 90 "Hibernate"))))
      = Except.ok { entryText := some "90", hibernateChecked := true } ∧
    load_settings none
      = Except.ok { entryText := none, hibernateChecked := false } ∧
    load_settings (some none)
      = Except.ok { entryText := none, hibernateChecked := false } ∧
    load_settings (some (some (JDoc.jobj [("last_duration", JVal.jstr "soon"),
        ("last_action", JVal.jint 3)])))
      = Except.ok { entryText := none, hibernateChecked := false } ∧
    load_settings (some (some (JDoc.jobj [])))
      = Except.ok { entryText := none, hibernateChecked := false } ∧
    load_settings (some (some (JDoc.jobj [("last_duration", JVal.jint n)])))
      = Except.ok { entryText := some (toString n), hibernateChecked := false } ∧
    load_settings (some (some (JDoc.jobj (save_settings n "Hibernate"))))
      = Except.ok { entryText := some (toString n), hibernateChecked := true } ∧
    load_settings (some (some (JDoc.jarrDoc elems)))
      = Except.error PyError.attributeError ∧
    load_settings (some (some (JDoc.jstrDoc str)))
      = Except.error PyError.attributeError ∧
    load_settings (some (some (JDoc.jintDoc n)))
      = Except.error PyError.attributeError ∧
    load_settings (some (some (JDoc.jboolDoc b)))
      = Except.error PyError.attributeError ∧
    load_settings (some (some JDoc.jnullDoc))
      = Except.error PyError.attributeError := by
  exact ⟨rfl, rfl, rfl, rfl, rfl, rfl, rfl, rfl, rfl, rfl, rfl, rfl⟩

/-- Witness for C7 amended at the stored duration -7 and the non-object
documents "x", true, and [null]. -/
theorem C7_settings_witness :
    load_settings (some (some (JDoc.jobj [("last_duration", JVal.jint (-7))])))
      = Except.ok { entryText := some (toString (-7 : Int)), hibernateChecked := false } ∧
    load_settings (some (some (JDoc.jarrDoc [JVal.jnull])))
      = Except.error PyError.attributeError ∧
    load_settings (some (some (JDoc.jstrDoc "x")))
      = Except.error PyError.attributeError :=
  ⟨(C7_settings (-7) "x" true [JVal.jnull]).2.2.2.2.2.1,
    (C7_settings (-7) "x" true [JVal.jnull]).2.2.2.2.2.2.2.1,
    (C7_settings (-7) "x" true [JVal.jnull]).2.2.2.2.2.2.2.2.1⟩

/-- C8 counterexample: the widget computes the sweep fraction as a bare
quotient with no clamping, so the claimed bounds fail outside the range
the engine happens to deliver: at (total=2, remaining=5) the fraction is
5/2 > 1, and at (total=0, remaining=0) — where remaining = total — the
fraction is 0, not 1.0. -/
theorem C8_counterexample :
    1 < sweepFraction 2 5 ∧ sweepFraction 0 0 ≠ 1 := by
  constructor <;> norm_num [sweepFraction, sweepAngle]

/-- C8 amended: for total > 0 and 0 ≤ remaining ≤ total — the only inputs
the countdown engine delivers — the sweep fraction equals
remaining/total, lies in [0, 1], is exactly 1 at remaining = total and
exactly 0 at remaining = 0; for total = 0 the fraction is 0; the drawn arc
angle is 360° × fraction.  The widget itself performs no clamping, so the
bounds do not hold for arguments outside this range (see the
counterexample). -/
theorem C8_ring_fraction (total remaining : Int) (h1 : 0 < total)
    (h2 : 0 ≤ remaining) (h3 : remaining ≤ total) :
    sweepFraction total remaining = (remaining : ℚ) / (total : ℚ) ∧
    0 ≤ sweepFraction total remaining ∧
    sweepFraction total remaining ≤ 1 ∧
    (remaining = total → sweepFraction total remaining = 1) ∧
    (remaining = 0 → sweepFraction total remaining = 0) ∧
    sweepAngle total remaining = 360 * sweepFraction total remaining ∧
    sweepFraction 0 remaining = 0 := by
  have ht0 : (0 : ℚ) < (total : ℚ) := by exact_mod_cast h1
  have key : sweepFraction total remaining = (remaining : ℚ) / (total : ℚ) := by
    simp only [sweepFraction, sweepAngle, if_pos h1]
    ring
  refine ⟨key, ?_, ?_, ?_, ?_, ?_, ?_⟩
  · rw [key]
    exact div_nonneg (by exact_mod_cast h2) ht0.le
  · rw [key]
    exact (div_le_one ht0).mpr (by exact_mod_cast h3)
  · intro hrt
    rw [key, hrt]
    exact div_self ht0.ne'
  · intro hr0
    rw [key, hr0]
    simp
  · simp only [sweepFraction]
    ring
  · simp [sweepFraction, sweepAngle]

/-- Witness for C8 amended at (total, remaining) = (4, 2). -/
theorem C8_ring_fraction_witness :
    sweepFraction 4 2 = (2 : ℚ) / 4 ∧ sweepFraction 4 2 ≤ 1 :=
  ⟨(C8_ring_fraction 4 2 (by decide) (by decide) (by decide)).1,
    (C8_ring_fraction 4 2 (by decide) (by decide) (by decide)).2.2.1⟩

/-- C9: for every non-negative remaining time the displayed label is
minutes and seconds from floor division by 60 (Python divmod), each
rendered zero-padded to a minimum of two digits and joined by a colon,
with the claim's three sample points: 125 → "02:05", 0 → "00:00",
3599 → "59:59". -/
theorem C9_time_label (n : Nat) :
    timeStr (n : Int) = pad2 ((n / 60 : Nat) : Int) ++ ":" ++ pad2 ((n % 60 : Nat) : Int) ∧
    timeStr 125 = "02:05" ∧
    timeStr 0 = "00:00" ∧
    timeStr 3599 = "59:59" := by
  refine ⟨?_, by decide, by decide, by decide⟩
  have hdiv : (n : Int).fdiv 60 = ((n / 60 : Nat) : Int) := by
    rw [Int.fdiv_eq_ediv _ (by omega)]
    omega
  have hmod : (n : Int).fmod 60 = ((n % 60 : Nat) : Int) := by
    rw [Int.fmod_eq_emod _ (by omega)]
    omega
  show pad2 ((n : Int).fdiv 60) ++ ":" ++ pad2 ((n : Int).fmod 60)
      = pad2 ((n / 60 : Nat) : Int) ++ ":" ++ pad2 ((n % 60 : Nat) : Int)
  rw [hdiv, hmod]

/-- Witness for C9 at remaining = 125. -/
theorem C9_time_label_witness :
    timeStr ((125 : Nat) : Int)
      = pad2 ((125 / 60 : Nat) : Int) ++ ":" ++ pad2 ((125 % 60 : Nat) : Int) :=
  (C9_time_label 125).1

/-- C10: a freshly constructed ring widget holds total_seconds = 1 and
remaining_seconds = 1, so before any set_timer call it renders a full arc
(fraction 1) and the label "00:01" rather than an empty ring at
"00:00". -/
theorem C10_initial_widget :
    circularTimerInit.total_seconds = 1 ∧
    circularTimerInit.remaining_seconds = 1 ∧
    sweepFraction circularTimerInit.total_seconds
      circularTimerInit.remaining_seconds = 1 ∧
    timeStr circularTimerInit.remaining_seconds = "00:01" := by
  refine ⟨rfl, rfl, ?_, by decide⟩
  norm_num [sweepFraction, sweepAngle, circularTimerInit]

end SleepSched
